import Mathlib

/-!
Shallow embedding of the object-transfer core of the `rust-aws-sdk-s3-demo`
repository (`src/main.rs`): client construction from environment variables,
list / upload / download operations against an S3-like store, and the local
filesystem interactions they perform.

Modelling choices:
* Byte contents are `List Nat`.
* The local filesystem is an association list of file paths to contents plus a
  list of existing directories; paths are strings compared up to component
  normalisation (Rust `Path` semantics for `join` and `parent` are embedded in
  `pathJoin` / `pathParent`).
* The S3 store is an association list of (bucket, key) to bytes.
* Network calls are recorded in an explicit event list; every operation is a
  pure state transformer `S3State → S3State × Except err α`, returning the
  state reached so far also on the error path (mirroring Rust `?`
  propagation, which keeps the side effects already performed).
* The streamed download body is an arbitrary chunking of the stored bytes,
  consumed through an explicit `BufWriter` model with a buffer that is
  flushed to the file only by `bwFlush`.
* I/O failures (disk full, interrupted writes) are outside the model: the
  embedding follows the success path of each local filesystem primitive.
-/

namespace S3Demo

/-- Byte string: contents of files and objects. -/
abbrev Bytes := List Nat

/-- Decidable equality for `Except` results. -/
def exceptDecEq {ε α : Type} [DecidableEq ε] [DecidableEq α] :
    DecidableEq (Except ε α)
  | .error e, .error f =>
    if h : e = f then .isTrue (by rw [h]) else .isFalse (by simp [h])
  | .error _, .ok _ => .isFalse (by simp)
  | .ok _, .error _ => .isFalse (by simp)
  | .ok a, .ok b =>
    if h : a = b then .isTrue (by rw [h]) else .isFalse (by simp [h])

instance {ε α : Type} [DecidableEq ε] [DecidableEq α] :
    DecidableEq (Except ε α) := exceptDecEq

/-- `starts_with` on strings (structural, over the character lists). -/
def strStartsWith (s pre : String) : Bool := pre.data.isPrefixOf s.data

/-- `ends_with` on strings (structural, over the character lists). -/
def strEndsWith (s suf : String) : Bool := suf.data.isSuffixOf s.data

/-! ## Paths (Rust `std::path::Path` semantics used by `main.rs`) -/

/-- Split a character list at every `/`. -/
def splitSlash : List Char → List (List Char)
  | [] => [[]]
  | c :: cs =>
    if c == '/' then [] :: splitSlash cs
    else
      match splitSlash cs with
      | [] => [[c]]
      | g :: gs => (c :: g) :: gs

/-- Rust `Path::is_absolute` on Unix: the path starts with `/`. -/
def pathIsAbsolute (p : String) : Bool :=
  match p.data with
  | '/' :: _ => true
  | _ => false

/-- Rust `Path::join`: if the appended path is absolute it replaces the whole
path, otherwise it is appended with a separator as needed. -/
def pathJoin (p q : String) : String :=
  if pathIsAbsolute q then q
  else if p = "" then q
  else if strEndsWith p "/" then p ++ q
  else p ++ "/" ++ q

/-- The normal components of a path: split on `/`, dropping empty components
and `.` (as Rust `Path::components` does). -/
def pathComponents (p : String) : List String :=
  ((splitSlash p.data).map String.mk).filter (fun c => !(c == "" || c == "."))

/-- Rust `Path::parent`: the path without its final component; `none` for the
root and for the empty path. -/
def pathParent (p : String) : Option String :=
  match pathComponents p with
  | [] => none
  | [_] => if pathIsAbsolute p then some "/" else some ""
  | comps =>
      some ((if pathIsAbsolute p then "/" else "") ++
        String.intercalate "/" comps.dropLast)

/-- Canonical string form of a path (used to compare paths that differ only in
trailing slashes or `.` components). -/
def normPath (p : String) : String :=
  (if pathIsAbsolute p then "/" else "") ++
    String.intercalate "/" (pathComponents p)

/-- All ancestor paths of `p`, innermost last: the paths that Rust
`create_dir_all(p)` creates (each missing ancestor and `p` itself). -/
def parentPaths (p : String) : List String :=
  let comps := pathComponents p
  (List.range comps.length).map (fun i =>
    (if pathIsAbsolute p then "/" else "") ++
      String.intercalate "/" (comps.take (i + 1)))

/-! ## Local filesystem -/

/-- Local filesystem: files (path ↦ bytes, most recent first) and the set of
existing directories. Paths are stored in the canonical form of `normPath`,
and queries normalise their argument before comparing. -/
structure FS where
  files : List (String × Bytes)
  dirs : List String
deriving DecidableEq

/-- Contents of the file at `p`, if a file exists there. -/
def FS.lookupFile (fs : FS) (p : String) : Option Bytes :=
  (fs.files.find? (fun e => e.1 == normPath p)).map (fun e => e.2)

/-- Rust `Path::is_dir`. -/
def FS.isDir (fs : FS) (p : String) : Bool :=
  fs.dirs.contains (normPath p)

/-- Rust `Path::exists`: true if a file or a directory exists at `p`. -/
def FS.pathExists (fs : FS) (p : String) : Bool :=
  (fs.lookupFile p).isSome || fs.isDir p

/-- Create/overwrite the file at `p` with contents `b` (the end state of Rust
`File::create` followed by the writes). -/
def FS.writeFile (fs : FS) (p : String) (b : Bytes) : FS :=
  { fs with files := (normPath p, b) :: fs.files.filter (fun e => !(e.1 == normPath p)) }

/-- Rust `create_dir_all`: create `p` and every missing ancestor. -/
def FS.createDirAll (fs : FS) (p : String) : FS :=
  { fs with dirs := fs.dirs ++ parentPaths p }

/-! ## Buffered writer (Rust `BufWriter<File>` as used in `download_file`) -/

/-- Buffered writer over a freshly created file: `fileBytes` is what has
reached the file, `buf` is buffered output not yet flushed. -/
structure BufWriter where
  fileBytes : Bytes
  buf : Bytes
deriving DecidableEq

/-- `BufWriter::write` on the success path: the chunk is accepted into the
writer. -/
def bwWrite (w : BufWriter) (chunk : Bytes) : BufWriter :=
  { w with buf := w.buf ++ chunk }

/-- `BufWriter::flush`: move all buffered bytes to the file. -/
def bwFlush (w : BufWriter) : BufWriter :=
  { fileBytes := w.fileBytes ++ w.buf, buf := [] }

/-! ## S3 store, events, client -/

/-- The remote store: (bucket, key) ↦ object bytes, in insertion order. -/
structure Store where
  objects : List (String × String × Bytes)
deriving DecidableEq

/-- `put_object`: create or overwrite the object at (bucket, key). -/
def storePut (s : Store) (bucket key : String) (b : Bytes) : Store :=
  { objects :=
      s.objects.filter (fun o => !(o.1 == bucket && o.2.1 == key)) ++
        [(bucket, key, b)] }

/-- `get_object`: the bytes stored at (bucket, key), if any. -/
def storeGet (s : Store) (bucket key : String) : Option Bytes :=
  (s.objects.find? (fun o => o.1 == bucket && o.2.1 == key)).map (fun o => o.2.2)

/-- Keys of the bucket's objects whose key starts with `pfx`, in store order
(the server-side filtering of `list-objects-v2`). -/
def storeKeys (s : Store) (bucket pfx : String) : List String :=
  (s.objects.filter (fun o => o.1 == bucket && strStartsWith o.2.1 pfx)).map
    (fun o => o.2.1)

/-- One network request issued to the store. -/
inductive Event
  | listObjectsV2 (bucket pfx : String)
  | putObject (bucket key contentType : String)
  | getObject (bucket key : String)
deriving DecidableEq

/-- World state threaded through the operations: local filesystem, remote
store, and the network requests issued so far. -/
structure S3State where
  fs : FS
  store : Store
  events : List Event
deriving DecidableEq

/-- `aws_sdk_s3::Credentials` as built by `Credentials::new`. -/
structure Credentials where
  keyId : String
  keySecret : String
  providerName : String
deriving DecidableEq

/-- The configured client: region plus credentials (no connection is made at
construction time). -/
structure AwsClient where
  region : String
  credentials : Credentials
deriving DecidableEq

/-- Process environment: name ↦ value. -/
abbrev Env := List (String × String)

/-- Rust `std::env::var` (as an `Option`). -/
def envVar (env : Env) (name : String) : Option String :=
  (env.find? (fun e => e.1 == name)).map (fun e => e.2)

/-! ## Errors (taxonomy of the spec, messages from `main.rs`) -/

/-- Client-construction errors. -/
inductive ConfigError
  | missingCredential (name : String)
deriving DecidableEq

/-- Transfer errors. -/
inductive TransferError
  | invalidDestination (msg : String)
  | invalidKey (msg : String)
  | notFound (msg : String)
  | network (msg : String)
  | ioError (msg : String)
deriving DecidableEq

/-! ## Constants of `main.rs` -/

def ENV_CRED_KEY_ID : String := "S3_KEY_ID"
def ENV_CRED_KEY_SECRET : String := "S3_KEY_SECRET"
def BUCKET_NAME : String := "rust-aws-sdk-s3-demo"
def REGION : String := "us-west-2"

/-! ## The four operations of `main.rs` -/

/-- `get_aws_client`: read the two credential variables from the environment
(`context` turns an absent variable into an error naming it), then build
credentials and a client purely in memory. The state is returned unchanged:
the construction issues no request and has no side effect. -/
def get_aws_client (env : Env) (region : String) (st : S3State) :
    S3State × Except ConfigError AwsClient :=
  match envVar env ENV_CRED_KEY_ID with
  | none => (st, .error (.missingCredential ENV_CRED_KEY_ID))
  | some key_id =>
    match envVar env ENV_CRED_KEY_SECRET with
    | none => (st, .error (.missingCredential ENV_CRED_KEY_SECRET))
    | some key_secret =>
      let cred : Credentials :=
        { keyId := key_id, keySecret := key_secret,
          providerName := "loaded-from-custom-env" }
      (st, .ok { region := region, credentials := cred })

/-- One entry of a `list-objects-v2` response (`aws_sdk_s3::model::Object`):
the key field is optional. -/
structure S3Object where
  key : Option String
deriving DecidableEq

/-- A `list-objects-v2` response page: `contents` is absent when no object
matched. -/
structure ListObjectsV2Output where
  contents : Option (List S3Object)
deriving DecidableEq

/-- The store's response to `list-objects-v2`: one entry per object of the
bucket whose key starts with `pfx`, `contents` omitted when there are none. -/
def storeList (s : Store) (bucket pfx : String) : ListObjectsV2Output :=
  match storeKeys s bucket pfx with
  | [] => { contents := none }
  | ks => { contents := some (ks.map (fun k => { key := some k })) }

/-- The COLLECT phase of `list_keys`: `res.contents().unwrap_or_default()`,
then keep the `key` of each entry that has one, in response order. -/
def list_keys_collect (res : ListObjectsV2Output) : List String :=
  let keys := res.contents.getD []
  keys.filterMap (fun o => o.key)

/-- `list_keys`: build a `list-objects-v2` request for the bucket with the
fixed empty string as its key filter, execute it, and collect the keys of the
returned entries. -/
def list_keys (st : S3State) (bucketName : String) :
    S3State × Except TransferError (List String) :=
  let pfx := ""
  let st1 : S3State :=
    { st with events := st.events ++ [Event.listObjectsV2 bucketName pfx] }
  let res := storeList st1.store bucketName pfx
  (st1, .ok (list_keys_collect res))

/-- Modelled from the spec: the §4.2 contract
`listKeys(client, bucketName, prefix)` — missing from the source, whose
`list_keys` takes no such parameter. Builds the request scoped to the given
key filter and collects the returned keys. -/
def listKeysSpec (st : S3State) (bucketName pfx : String) :
    S3State × Except TransferError (List String) :=
  let st1 : S3State :=
    { st with events := st.events ++ [Event.listObjectsV2 bucketName pfx] }
  let res := storeList st1.store bucketName pfx
  (st1, .ok (list_keys_collect res))

/-- `mime_guess::from_path(..).first_or_octet_stream()`, abbreviated to the
extensions the repository exercises; unknown or missing extensions fall back
to the generic binary type and never fail. -/
def mimeGuessFirstOrOctetStream (path : String) : String :=
  if strEndsWith path ".mp4" then "video/mp4"
  else "application/octet-stream"

/-- `upload_file`: validate that the local path exists (else fail before any
request), derive the key verbatim from the path string, stream the file as
the body, infer the content type, then execute `put_object`. -/
def upload_file (st : S3State) (bucketName path : String) :
    S3State × Except TransferError Unit :=
  -- VALIDATE
  if !(st.fs.pathExists path) then
    (st, .error (.notFound ("Path " ++ path ++ " does not exists")))
  else
    let key := path
    -- PREPARE: ByteStream::from_path errors when the path is not a file
    match st.fs.lookupFile path with
    | none => (st, .error (.ioError ("ByteStream from_path failed for " ++ path)))
    | some body =>
      let content_type := mimeGuessFirstOrOctetStream path
      -- BUILD + EXECUTE
      ({ st with
          store := storePut st.store bucketName key body,
          events := st.events ++ [Event.putObject bucketName key content_type] },
        .ok ())

/-- `download_file`: validate that `dir` is a directory (else fail before any
request), join `dir` with `key`, create the missing parent directories, then
execute `get_object` and stream the body chunks through a buffered writer
into the freshly created file, flushing before returning. `chunksOf` is the
transport's chunking of the object bytes. -/
def download_file (st : S3State) (bucketName key dir : String)
    (chunksOf : Bytes → List Bytes) : S3State × Except TransferError Unit :=
  -- VALIDATE
  if !(st.fs.isDir dir) then
    (st, .error (.invalidDestination ("Path " ++ dir ++ " is not a directory")))
  else
    -- create file path and parent dir(s)
    let file_path := pathJoin dir key
    match pathParent file_path with
    | none => (st, .error (.invalidKey ("Invalid parent dir for " ++ file_path)))
    | some parent_dir =>
      let fs1 :=
        if !(st.fs.pathExists parent_dir) then st.fs.createDirAll parent_dir
        else st.fs
      -- BUILD + EXECUTE
      let st1 : S3State :=
        { st with fs := fs1,
                  events := st.events ++ [Event.getObject bucketName key] }
      match storeGet st1.store bucketName key with
      | none =>
          (st1, .error (.network ("get_object failed for key " ++ key)))
      | some objBytes =>
        -- STREAM result to file: File::create truncates, then the chunk loop
        let chunks := chunksOf objBytes
        let w0 : BufWriter := { fileBytes := [], buf := [] }
        let w1 := chunks.foldl bwWrite w0
        let w2 := bwFlush w1
        ({ st1 with fs := fs1.writeFile file_path w2.fileBytes }, .ok ())

/-! ## Helper lemmas -/

/-- Folding `bwWrite` over a chunk list appends the chunks, in order and in
full, to the writer's buffer; nothing reaches the file until a flush. -/
theorem foldl_bwWrite (chunks : List Bytes) (w : BufWriter) :
    chunks.foldl bwWrite w =
      { fileBytes := w.fileBytes, buf := w.buf ++ chunks.flatten } := by
  induction chunks generalizing w with
  | nil => simp
  | cons c cs ih => simp [List.foldl_cons, bwWrite, ih]

/-- Reading back the file just written. -/
theorem lookupFile_writeFile_self (fs : FS) (p : String) (b : Bytes) :
    (fs.writeFile p b).lookupFile p = some b := by
  simp [FS.writeFile, FS.lookupFile, List.find?]

/-- Writing a file does not change the directory set. -/
theorem dirs_writeFile (fs : FS) (p : String) (b : Bytes) :
    (fs.writeFile p b).dirs = fs.dirs := rfl

/-- No surviving entry of the overwrite filter matches (bucket, key). -/
theorem find?_filter_put (l : List (String × String × Bytes))
    (bucket key : String) :
    ((l.filter (fun o => !(o.1 == bucket && o.2.1 == key))).find?
      (fun o => o.1 == bucket && o.2.1 == key)) = none := by
  rw [List.find?_eq_none]
  intro x hx
  have hkeep := List.of_mem_filter hx
  simp only [Bool.not_eq_true'] at hkeep
  simp [hkeep]

/-- Reading back the object just put. -/
theorem storeGet_storePut_self (s : Store) (bucket key : String) (b : Bytes) :
    storeGet (storePut s bucket key b) bucket key = some b := by
  unfold storeGet storePut
  rw [List.find?_append, find?_filter_put]
  simp [List.find?]

/-- A path present in the directory list is a directory. -/
theorem isDir_of_mem_dirs (fs : FS) (p : String) (h : normPath p ∈ fs.dirs) :
    fs.isDir p = true :=
  List.elem_eq_true_of_mem h

/-- `createDirAll` adds every ancestor path of `p` to the directory set. -/
theorem mem_dirs_createDirAll (fs : FS) (p q : String)
    (h : q ∈ parentPaths p) : q ∈ (fs.createDirAll p).dirs := by
  unfold FS.createDirAll
  simp [h]

/-- The canonical form of `p` is the innermost path created by
`create_dir_all p` (when `p` has at least one component). -/
theorem normPath_mem_parentPaths (p : String) (h : pathComponents p ≠ []) :
    normPath p ∈ parentPaths p := by
  unfold parentPaths normPath
  have hlen : 0 < (pathComponents p).length := by
    cases hc : pathComponents p with
    | nil => exact absurd hc h
    | cons a l => simp
  refine List.mem_map.mpr ⟨(pathComponents p).length - 1, ?_, ?_⟩
  · simp [List.mem_range]
    omega
  · have : (pathComponents p).length - 1 + 1 = (pathComponents p).length := by
      omega
    rw [this, List.take_length]

/-- Keys extracted from entries: `filterMap` over the optional key field is
the same as first dropping the keyless entries, then reading off the keys. -/
theorem filterMap_key_eq_filter_map (entries : List S3Object) :
    entries.filterMap (fun o => o.key) =
      (entries.filter (fun o => o.key.isSome)).map (fun o => o.key.getD "") := by
  induction entries with
  | nil => rfl
  | cons e es ih =>
    cases hk : e.key with
    | none => simp [List.filterMap_cons, List.filter_cons, hk, ih]
    | some k => simp [List.filterMap_cons, List.filter_cons, hk, ih]

/-- Every string starts with the empty string. -/
theorem strStartsWith_empty (s : String) : strStartsWith s "" = true := by
  unfold strStartsWith
  show List.isPrefixOf [] s.data = true
  cases s.data <;> rfl

/-- The empty state used by concrete witnesses. -/
def st0 : S3State :=
  { fs := { files := [], dirs := [] }, store := { objects := [] }, events := [] }

/-- Characterization of a successful download: with a valid destination
directory, a parent path for the joined file path, and the object present,
`download_file` creates the missing parent directories, issues the single
`get_object` request, and writes the flattened chunk sequence to the joined
file path. -/
theorem download_file_ok (st : S3State) (bucketName key dir par : String)
    (b : Bytes) (chunksOf : Bytes → List Bytes)
    (hdir : st.fs.isDir dir = true)
    (hpar : pathParent (pathJoin dir key) = some par)
    (hget : storeGet st.store bucketName key = some b) :
    download_file st bucketName key dir chunksOf =
      ({ fs := (if !(st.fs.pathExists par) then st.fs.createDirAll par
                else st.fs).writeFile (pathJoin dir key) ((chunksOf b).flatten),
         store := st.store,
         events := st.events ++ [Event.getObject bucketName key] }, .ok ()) := by
  simp [download_file, hdir, hpar, hget, foldl_bwWrite, bwFlush]

/-! ## Claims -/

/-- C3: if the destination directory does not exist or is not a directory,
`download_file` fails with the invalid-destination error and the state is
unchanged: no network request is issued and no directory (in particular not
the top-level destination directory) is created. -/
theorem C3_download_invalid_destination (st : S3State)
    (bucketName key dir : String) (chunksOf : Bytes → List Bytes)
    (hdir : st.fs.isDir dir = false) :
    download_file st bucketName key dir chunksOf =
      (st, .error (.invalidDestination
        ("Path " ++ dir ++ " is not a directory"))) := by
  simp [download_file, hdir]

/-- Witness for C3: downloading into a missing directory on the empty state
fails with the invalid-destination error, leaving the state untouched. -/
theorem C3_download_invalid_destination_witness :
    st0.fs.isDir ".test-data/downloads" = false ∧
    download_file st0 BUCKET_NAME "videos/ski-02.mp4" ".test-data/downloads"
        (fun b => [b]) =
      (st0, .error (.invalidDestination
        ("Path " ++ ".test-data/downloads" ++ " is not a directory"))) :=
  ⟨by decide,
   C3_download_invalid_destination st0 BUCKET_NAME "videos/ski-02.mp4"
     ".test-data/downloads" (fun b => [b]) (by decide)⟩

/-- C4: if the local path does not exist, `upload_file` fails with the
not-found error and the state is unchanged: no network request is issued, the
body and content type are never prepared, and there is no side effect. -/
theorem C4_upload_not_found (st : S3State) (bucketName path : String)
    (h : st.fs.pathExists path = false) :
    upload_file st bucketName path =
      (st, .error (.notFound ("Path " ++ path ++ " does not exists"))) := by
  simp [upload_file, h]

/-- Witness for C4: uploading a missing path on the empty state fails with
the not-found error, leaving the state untouched. -/
theorem C4_upload_not_found_witness :
    st0.fs.pathExists "no-such-file.txt" = false ∧
    upload_file st0 BUCKET_NAME "no-such-file.txt" =
      (st0, .error (.notFound
        ("Path " ++ "no-such-file.txt" ++ " does not exists"))) :=
  ⟨by decide,
   C4_upload_not_found st0 BUCKET_NAME "no-such-file.txt" (by decide)⟩

/-- C2: for every response body given as a finite sequence of chunks of the
stored bytes, a successful download writes the chunks to the destination
file in arrival order and in full, the file contents after return being
exactly their concatenation (so the file was created truncating whatever was
there — no prior-content hypothesis is needed — and all buffered output was
flushed into the file before success was returned). -/
theorem C2_download_streams_and_flushes (st : S3State)
    (bucketName key dir par : String) (b : Bytes)
    (chunksOf : Bytes → List Bytes)
    (hdir : st.fs.isDir dir = true)
    (hpar : pathParent (pathJoin dir key) = some par)
    (hget : storeGet st.store bucketName key = some b) :
    (download_file st bucketName key dir chunksOf).2 = .ok () ∧
    (download_file st bucketName key dir chunksOf).1.fs.lookupFile
        (pathJoin dir key) = some ((chunksOf b).flatten) := by
  rw [download_file_ok st bucketName key dir par b chunksOf hdir hpar hget]
  exact ⟨rfl, lookupFile_writeFile_self _ _ _⟩

/-- Witness for C2: a two-chunk body for a stored object is written in order
and in full; the destination file holds the concatenation (here over a state
whose destination file already held stale bytes, which are truncated away). -/
theorem C2_download_streams_and_flushes_witness :
    (download_file
        { fs := { files := [("dest/videos/ski-02.mp4", [9, 9, 9, 9])],
                  dirs := ["dest", "dest/videos"] },
          store := { objects := [(BUCKET_NAME, "videos/ski-02.mp4", [10, 20, 30])] },
          events := [] }
        BUCKET_NAME "videos/ski-02.mp4" "dest"
        (fun b => [b.take 2, b.drop 2])).2 = .ok () ∧
    (download_file
        { fs := { files := [("dest/videos/ski-02.mp4", [9, 9, 9, 9])],
                  dirs := ["dest", "dest/videos"] },
          store := { objects := [(BUCKET_NAME, "videos/ski-02.mp4", [10, 20, 30])] },
          events := [] }
        BUCKET_NAME "videos/ski-02.mp4" "dest"
        (fun b => [b.take 2, b.drop 2])).1.fs.lookupFile
      (pathJoin "dest" "videos/ski-02.mp4") =
      some (((fun (b : Bytes) => [b.take 2, b.drop 2]) [10, 20, 30]).flatten) :=
  C2_download_streams_and_flushes
    { fs := { files := [("dest/videos/ski-02.mp4", [9, 9, 9, 9])],
              dirs := ["dest", "dest/videos"] },
      store := { objects := [(BUCKET_NAME, "videos/ski-02.mp4", [10, 20, 30])] },
      events := [] }
    BUCKET_NAME "videos/ski-02.mp4" "dest" "dest/videos" [10, 20, 30]
    (fun b => [b.take 2, b.drop 2]) (by decide) (by decide) (by decide)

/-- C5: a successful download writes the file at `dir` joined with `key`,
and when the parent of that joined path does not yet exist, it and all its
ancestor directories are created before writing. -/
theorem C5_download_join_and_parent_creation (st : S3State)
    (bucketName key dir par : String) (b : Bytes)
    (chunksOf : Bytes → List Bytes)
    (hdir : st.fs.isDir dir = true)
    (hpar : pathParent (pathJoin dir key) = some par)
    (hget : storeGet st.store bucketName key = some b)
    (hmissing : st.fs.pathExists par = false)
    (hcomps : pathComponents par ≠ []) :
    (download_file st bucketName key dir chunksOf).2 = .ok () ∧
    (download_file st bucketName key dir chunksOf).1.fs.lookupFile
        (pathJoin dir key) = some ((chunksOf b).flatten) ∧
    (∀ q ∈ parentPaths par,
      q ∈ (download_file st bucketName key dir chunksOf).1.fs.dirs) ∧
    (download_file st bucketName key dir chunksOf).1.fs.isDir par = true := by
  rw [download_file_ok st bucketName key dir par b chunksOf hdir hpar hget]
  refine ⟨rfl, lookupFile_writeFile_self _ _ _, ?_, ?_⟩
  · intro q hq
    rw [dirs_writeFile]
    simp only [hmissing, Bool.not_false, if_true]
    exact mem_dirs_createDirAll st.fs par q hq
  · apply isDir_of_mem_dirs
    rw [dirs_writeFile]
    simp only [hmissing, Bool.not_false, if_true]
    exact mem_dirs_createDirAll st.fs par _ (normPath_mem_parentPaths par hcomps)

/-- Witness for C5: downloading key `videos/ski-02.mp4` into existing
directory `dest` creates `dest/videos` (and would create every missing
ancestor) and writes the file `dest/videos/ski-02.mp4`. -/
theorem C5_download_join_and_parent_creation_witness :
    (download_file
        { fs := { files := [], dirs := ["dest"] },
          store := { objects := [(BUCKET_NAME, "videos/ski-02.mp4", [10, 20, 30])] },
          events := [] }
        BUCKET_NAME "videos/ski-02.mp4" "dest" (fun b => [b])).2 = .ok () ∧
    (download_file
        { fs := { files := [], dirs := ["dest"] },
          store := { objects := [(BUCKET_NAME, "videos/ski-02.mp4", [10, 20, 30])] },
          events := [] }
        BUCKET_NAME "videos/ski-02.mp4" "dest" (fun b => [b])).1.fs.lookupFile
      (pathJoin "dest" "videos/ski-02.mp4") =
      some (((fun (b : Bytes) => [b]) [10, 20, 30]).flatten) ∧
    (∀ q ∈ parentPaths "dest/videos",
      q ∈ (download_file
        { fs := { files := [], dirs := ["dest"] },
          store := { objects := [(BUCKET_NAME, "videos/ski-02.mp4", [10, 20, 30])] },
          events := [] }
        BUCKET_NAME "videos/ski-02.mp4" "dest" (fun b => [b])).1.fs.dirs) ∧
    (download_file
        { fs := { files := [], dirs := ["dest"] },
          store := { objects := [(BUCKET_NAME, "videos/ski-02.mp4", [10, 20, 30])] },
          events := [] }
        BUCKET_NAME "videos/ski-02.mp4" "dest" (fun b => [b])).1.fs.isDir
      "dest/videos" = true :=
  C5_download_join_and_parent_creation
    { fs := { files := [], dirs := ["dest"] },
      store := { objects := [(BUCKET_NAME, "videos/ski-02.mp4", [10, 20, 30])] },
      events := [] }
    BUCKET_NAME "videos/ski-02.mp4" "dest" "dest/videos" [10, 20, 30]
    (fun b => [b]) (by decide) (by decide) (by decide) (by decide) (by decide)

/-- C7: `upload_file` uses the local path's string verbatim as the remote
key: on an existing file, the put request and the stored object both carry
exactly the path string as key (separators included), and reading that key
back from the store yields the uploaded bytes. -/
theorem C7_upload_key_is_path_verbatim (st : S3State)
    (bucketName path : String) (b : Bytes)
    (hread : st.fs.lookupFile path = some b) :
    upload_file st bucketName path =
      ({ st with
          store := storePut st.store bucketName path b,
          events := st.events ++
            [Event.putObject bucketName path
              (mimeGuessFirstOrOctetStream path)] },
        .ok ()) ∧
    storeGet (storePut st.store bucketName path b) bucketName path = some b := by
  constructor
  · simp [upload_file, FS.pathExists, hread]
  · exact storeGet_storePut_self _ _ _ _

/-- Witness for C7: uploading local path `src/main.rs` issues a put request
with key `src/main.rs` and stores the bytes at that key. -/
theorem C7_upload_key_is_path_verbatim_witness :
    upload_file
        { fs := { files := [("src/main.rs", [1, 2, 3])], dirs := [] },
          store := { objects := [] }, events := [] }
        BUCKET_NAME "src/main.rs" =
      ({ fs := { files := [("src/main.rs", [1, 2, 3])], dirs := [] },
         store := storePut { objects := [] } BUCKET_NAME "src/main.rs" [1, 2, 3],
         events := [] ++
           [Event.putObject BUCKET_NAME "src/main.rs"
             (mimeGuessFirstOrOctetStream "src/main.rs")] },
        .ok ()) ∧
    storeGet (storePut { objects := [] } BUCKET_NAME "src/main.rs" [1, 2, 3])
      BUCKET_NAME "src/main.rs" = some [1, 2, 3] :=
  C7_upload_key_is_path_verbatim
    { fs := { files := [("src/main.rs", [1, 2, 3])], dirs := [] },
      store := { objects := [] }, events := [] }
    BUCKET_NAME "src/main.rs" [1, 2, 3] (by decide)

/-- C10: for an absolute key, Rust `Path::join` discards the destination
directory: the joined path is the key itself, the download succeeds and
writes the file at the key's own (absolute) path, outside the destination
directory. -/
theorem C10_absolute_key_escapes_dest (st : S3State)
    (bucketName key dir par : String) (b : Bytes)
    (chunksOf : Bytes → List Bytes)
    (habs : pathIsAbsolute key = true)
    (hdir : st.fs.isDir dir = true)
    (hpar : pathParent key = some par)
    (hget : storeGet st.store bucketName key = some b) :
    pathJoin dir key = key ∧
    (download_file st bucketName key dir chunksOf).2 = .ok () ∧
    (download_file st bucketName key dir chunksOf).1.fs.lookupFile key =
      some ((chunksOf b).flatten) ∧
    pathIsAbsolute (pathJoin dir key) = true := by
  have hjoin : pathJoin dir key = key := by simp [pathJoin, habs]
  have hpar' : pathParent (pathJoin dir key) = some par := by
    rw [hjoin]; exact hpar
  have hrun := download_file_ok st bucketName key dir par b chunksOf hdir hpar' hget
  rw [hjoin] at hrun
  refine ⟨hjoin, ?_, ?_, by rw [hjoin]; exact habs⟩
  · rw [hrun]
  · rw [hrun]
    exact lookupFile_writeFile_self _ _ _

/-- Witness for C10: downloading the absolute key `/tmp/evil.txt` into the
existing relative directory `dest` writes the file at `/tmp/evil.txt`, which
does not lie under `dest`. -/
theorem C10_absolute_key_escapes_dest_witness :
    (pathJoin "dest" "/tmp/evil.txt" = "/tmp/evil.txt" ∧
      (download_file
          { fs := { files := [], dirs := ["dest"] },
            store := { objects := [(BUCKET_NAME, "/tmp/evil.txt", [7, 8])] },
            events := [] }
          BUCKET_NAME "/tmp/evil.txt" "dest" (fun b => [b])).2 = .ok () ∧
      (download_file
          { fs := { files := [], dirs := ["dest"] },
            store := { objects := [(BUCKET_NAME, "/tmp/evil.txt", [7, 8])] },
            events := [] }
          BUCKET_NAME "/tmp/evil.txt" "dest" (fun b => [b])).1.fs.lookupFile
        "/tmp/evil.txt" = some (((fun (b : Bytes) => [b]) [7, 8]).flatten) ∧
      pathIsAbsolute (pathJoin "dest" "/tmp/evil.txt") = true) ∧
    strStartsWith "/tmp/evil.txt" "dest" = false :=
  ⟨C10_absolute_key_escapes_dest
      { fs := { files := [], dirs := ["dest"] },
        store := { objects := [(BUCKET_NAME, "/tmp/evil.txt", [7, 8])] },
        events := [] }
      BUCKET_NAME "/tmp/evil.txt" "dest" "/tmp" [7, 8] (fun b => [b])
      (by decide) (by decide) (by decide) (by decide),
   by decide⟩

/-- C1: uploading an existing local file and then downloading the same key
(with no intervening mutation of the store) writes a destination file whose
bytes are identical to the uploaded file's bytes, for every chunking of the
response body that concatenates back to the stored object. -/
theorem C1_upload_download_round_trip (st st1 st2 : S3State)
    (dir p : String) (b : Bytes) (chunksOf : Bytes → List Bytes)
    (hread : st.fs.lookupFile p = some b)
    (hchunks : ∀ bytes, (chunksOf bytes).flatten = bytes)
    (hup : upload_file st BUCKET_NAME p = (st1, .ok ()))
    (hdl : download_file st1 BUCKET_NAME p dir chunksOf = (st2, .ok ())) :
    st2.fs.lookupFile (pathJoin dir p) = some b := by
  have hup' : upload_file st BUCKET_NAME p =
      ({ st with
          store := storePut st.store BUCKET_NAME p b,
          events := st.events ++
            [Event.putObject BUCKET_NAME p (mimeGuessFirstOrOctetStream p)] },
        .ok ()) := by
    simp [upload_file, FS.pathExists, hread]
  rw [hup'] at hup
  have hst1 : ({ st with
      store := storePut st.store BUCKET_NAME p b,
      events := st.events ++
        [Event.putObject BUCKET_NAME p (mimeGuessFirstOrOctetStream p)] }
      : S3State) = st1 := congrArg Prod.fst hup
  have hget : storeGet st1.store BUCKET_NAME p = some b := by
    rw [← hst1]
    exact storeGet_storePut_self _ _ _ _
  by_cases hdir : st1.fs.isDir dir = true
  · cases hpar : pathParent (pathJoin dir p) with
    | none =>
      exfalso
      simp [download_file, hdir, hpar] at hdl
    | some par =>
      have hrun := download_file_ok st1 BUCKET_NAME p dir par b chunksOf
        hdir hpar hget
      rw [hrun] at hdl
      have hst2 := congrArg Prod.fst hdl
      dsimp only at hst2
      rw [← hst2]
      simpa [hchunks b] using lookupFile_writeFile_self
        (if !(st1.fs.pathExists par) then st1.fs.createDirAll par else st1.fs)
        (pathJoin dir p) ((chunksOf b).flatten)
  · exfalso
    rw [Bool.not_eq_true] at hdir
    simp [download_file, hdir] at hdl

/-- Witness for C1: uploading the file `src/main.rs` with bytes `[1, 2, 3]`
and downloading key `src/main.rs` into directory `dest` yields the file
`dest/src/main.rs` with bytes `[1, 2, 3]`. -/
theorem C1_upload_download_round_trip_witness :
    ((download_file
        (upload_file
          { fs := { files := [("src/main.rs", [1, 2, 3])], dirs := ["dest"] },
            store := { objects := [] }, events := [] }
          BUCKET_NAME "src/main.rs").1
        BUCKET_NAME "src/main.rs" "dest" (fun b => [b])).1).fs.lookupFile
      (pathJoin "dest" "src/main.rs") = some [1, 2, 3] :=
  C1_upload_download_round_trip
    { fs := { files := [("src/main.rs", [1, 2, 3])], dirs := ["dest"] },
      store := { objects := [] }, events := [] }
    (upload_file
      { fs := { files := [("src/main.rs", [1, 2, 3])], dirs := ["dest"] },
        store := { objects := [] }, events := [] }
      BUCKET_NAME "src/main.rs").1
    (download_file
      (upload_file
        { fs := { files := [("src/main.rs", [1, 2, 3])], dirs := ["dest"] },
          store := { objects := [] }, events := [] }
        BUCKET_NAME "src/main.rs").1
      BUCKET_NAME "src/main.rs" "dest" (fun b => [b])).1
    "dest" "src/main.rs" [1, 2, 3] (fun b => [b])
    (by decide) (fun bytes => by simp) (by decide) (by decide)

/-- C6: `list_keys` returns exactly the keys of the response entries that
carry one, in response order, silently skipping keyless entries; and on a
bucket with no matching objects it returns the empty list, not an error. -/
theorem C6_list_keys_extracts_keys (entries : List S3Object)
    (st : S3State) (bucketName : String)
    (hempty : storeKeys st.store bucketName "" = []) :
    list_keys_collect { contents := some entries } =
      (entries.filter (fun o => o.key.isSome)).map (fun o => o.key.getD "") ∧
    list_keys_collect { contents := none } = [] ∧
    list_keys st bucketName =
      ({ st with events := st.events ++ [Event.listObjectsV2 bucketName ""] },
        .ok []) := by
  refine ⟨?_, rfl, ?_⟩
  · simpa [list_keys_collect] using filterMap_key_eq_filter_map entries
  · simp [list_keys, storeList, hempty, list_keys_collect]

/-- Witness for C6: a response with a keyless entry between two keyed ones
collects to the two keys in order, and listing the empty store returns the
empty list successfully. -/
theorem C6_list_keys_extracts_keys_witness :
    list_keys_collect
        { contents := some [{ key := some "a" }, { key := none },
                            { key := some "b" }] } =
      (([{ key := some "a" }, { key := none },
         { key := some "b" }] : List S3Object).filter
          (fun o => o.key.isSome)).map (fun o => o.key.getD "") ∧
    list_keys_collect { contents := none } = [] ∧
    list_keys st0 BUCKET_NAME =
      ({ st0 with events := st0.events ++ [Event.listObjectsV2 BUCKET_NAME ""] },
        .ok []) :=
  C6_list_keys_extracts_keys
    [{ key := some "a" }, { key := none }, { key := some "b" }]
    st0 BUCKET_NAME (by decide)

/-- Concrete state for the list-scoping analysis: the bucket holds the single
object key `a.txt`. -/
def c8State : S3State :=
  { fs := { files := [], dirs := [] },
    store := { objects := [(BUCKET_NAME, "a.txt", [1])] },
    events := [] }

/-- C8 counterexample: the source `list_keys` takes no prefix parameter and
always scopes its request to the fixed empty string: on a bucket holding only
key `a.txt` it issues the empty-scoped request and returns `a.txt`, which
does not start with the non-empty value `videos/`; the spec-modelled
prefix-scoped contract called at `videos/` would return nothing, so the code
does not realise that contract at any non-empty value. -/
theorem C8_list_scoping_counterexample :
    (list_keys c8State BUCKET_NAME).2 = .ok ["a.txt"] ∧
    strStartsWith "a.txt" "videos/" = false ∧
    (listKeysSpec c8State BUCKET_NAME "videos/").2 = .ok [] ∧
    (list_keys c8State BUCKET_NAME).1.events =
      [Event.listObjectsV2 BUCKET_NAME ""] := by
  exact ⟨by decide, by decide, by decide, by decide⟩

/-- C8 (amended): `list_keys` takes no prefix argument; it builds every list
request scoped to the fixed empty string (which matches all keys), coincides
with the spec's prefix-scoped contract exactly at the empty value, and every
key it returns starts with that empty scope. -/
theorem C8_list_keys_empty_scope (st : S3State) (bucketName : String) :
    list_keys st bucketName = listKeysSpec st bucketName "" ∧
    (list_keys st bucketName).1.events =
      st.events ++ [Event.listObjectsV2 bucketName ""] ∧
    (∀ keys, (list_keys st bucketName).2 = .ok keys →
      ∀ k ∈ keys, strStartsWith k "" = true) :=
  ⟨rfl, rfl, fun _ _ k _ => strStartsWith_empty k⟩

/-- Witness for C8 (amended): on the single-object bucket, the code's list
agrees with the spec contract at the empty value, records the empty-scoped
request, and the returned key `a.txt` starts with the empty scope. -/
theorem C8_list_keys_empty_scope_witness :
    list_keys c8State BUCKET_NAME = listKeysSpec c8State BUCKET_NAME "" ∧
    (list_keys c8State BUCKET_NAME).1.events =
      c8State.events ++ [Event.listObjectsV2 BUCKET_NAME ""] ∧
    strStartsWith "a.txt" "" = true :=
  ⟨(C8_list_keys_empty_scope c8State BUCKET_NAME).1,
   (C8_list_keys_empty_scope c8State BUCKET_NAME).2.1,
   (C8_list_keys_empty_scope c8State BUCKET_NAME).2.2 ["a.txt"] (by decide)
     "a.txt" (by decide)⟩

/-- C9: client construction fails with an error naming the specific missing
credential variable when either is absent, succeeds when both are present,
and in every case returns the state unchanged — no network request and no
side effect. -/
theorem C9_get_aws_client (env : Env) (region : String) (st : S3State) :
    (envVar env ENV_CRED_KEY_ID = none →
      get_aws_client env region st =
        (st, .error (.missingCredential ENV_CRED_KEY_ID))) ∧
    (∀ v, envVar env ENV_CRED_KEY_ID = some v →
      envVar env ENV_CRED_KEY_SECRET = none →
      get_aws_client env region st =
        (st, .error (.missingCredential ENV_CRED_KEY_SECRET))) ∧
    (∀ v w, envVar env ENV_CRED_KEY_ID = some v →
      envVar env ENV_CRED_KEY_SECRET = some w →
      get_aws_client env region st =
        (st, .ok { region := region,
                   credentials := { keyId := v, keySecret := w,
                                    providerName := "loaded-from-custom-env" } })) :=
  ⟨fun h1 => by simp [get_aws_client, h1],
   fun v h1 h2 => by simp [get_aws_client, h1, h2],
   fun v w h1 h2 => by simp [get_aws_client, h1, h2]⟩

/-- Witness for C9: concrete environments missing one variable fail naming
it; with both present, construction succeeds with those credentials. -/
theorem C9_get_aws_client_witness :
    get_aws_client [(ENV_CRED_KEY_SECRET, "sec")] REGION st0 =
      (st0, .error (.missingCredential ENV_CRED_KEY_ID)) ∧
    get_aws_client [(ENV_CRED_KEY_ID, "id")] REGION st0 =
      (st0, .error (.missingCredential ENV_CRED_KEY_SECRET)) ∧
    get_aws_client [(ENV_CRED_KEY_ID, "id"), (ENV_CRED_KEY_SECRET, "sec")]
        REGION st0 =
      (st0, .ok { region := REGION,
                  credentials := { keyId := "id", keySecret := "sec",
                                   providerName := "loaded-from-custom-env" } }) :=
  ⟨(C9_get_aws_client [(ENV_CRED_KEY_SECRET, "sec")] REGION st0).1 (by decide),
   (C9_get_aws_client [(ENV_CRED_KEY_ID, "id")] REGION st0).2.1 "id"
     (by decide) (by decide),
   (C9_get_aws_client [(ENV_CRED_KEY_ID, "id"), (ENV_CRED_KEY_SECRET, "sec")]
     REGION st0).2.2 "id" "sec" (by decide) (by decide)⟩

end S3Demo
